import Mathlib

/-!
Verification of the Tofu research pipeline (Atlassian Forge app).

JavaScript strings are modelled as `List Char`; stateful collaborators
(key-value store, queue, outbound HTTP) are modelled as explicit inputs and
outputs; a JavaScript `throw` is modelled as `Except.error` carrying the
error message.  Each definition names the source file and lines it embeds.
-/

namespace Tofu

/-- JavaScript string, modelled as a list of characters. -/
abbrev JStr := List Char

/-- Coerce a Lean string literal to the `JStr` model. -/
def str (s : String) : JStr := s.data

/-- JavaScript truthiness of an optional string: `undefined`, `null` and the
empty string are falsy. -/
def jsTruthy : Option JStr → Bool
  | some s => !s.isEmpty
  | none => false

/-- JavaScript `a || dflt` for an optional string `a` (empty string is falsy). -/
def jsOrStr (a : Option JStr) (dflt : JStr) : JStr :=
  match a with
  | some s => if s.isEmpty then dflt else s
  | none => dflt

/-- JavaScript `String.prototype.trim` (ASCII whitespace suffices for the
inputs this code handles). -/
def jsTrim (s : JStr) : JStr :=
  (s.dropWhile Char.isWhitespace).reverse.dropWhile Char.isWhitespace |>.reverse

/-- JavaScript `String.prototype.includes`: substring test. -/
def jsIncludes (s pat : JStr) : Bool := decide (pat <:+: s)

instance {ε α : Type} [DecidableEq ε] [DecidableEq α] : DecidableEq (Except ε α) := fun a b =>
  match a, b with
  | Except.ok x, Except.ok y =>
    if h : x = y then isTrue (by rw [h]) else isFalse (by simp [h])
  | Except.error x, Except.error y =>
    if h : x = y then isTrue (by rw [h]) else isFalse (by simp [h])
  | Except.ok _, Except.error _ => isFalse (by simp)
  | Except.error _, Except.ok _ => isFalse (by simp)

/-! ## Exa client data model (src/tofu/src/backend/exa/client.ts) -/

/-- Entity discriminator used throughout the pipeline. -/
inductive EntityType
  | person
  | company
  deriving DecidableEq, Repr

/-- Status values of an Exa research task (client.ts lines 150-174). -/
inductive ExaStatus
  | pending
  | running
  | completed
  | canceled
  | failed
  deriving DecidableEq, Repr

/-- One source entry of a completed research task (client.ts lines 168-172). -/
structure ResearchSource where
  url : JStr
  title : JStr
  snippet : Option JStr
  deriving DecidableEq, Repr

/-- `ExaResearchGetResponse` (client.ts lines 160-174); the metadata fields
(`researchId`, `model`, `instructions`, timestamps) are not consulted by the
poll loop and are omitted. -/
structure ExaResearchGetResponse where
  status : ExaStatus
  output : Option JStr
  sources : Option (List ResearchSource)
  error : Option JStr
  deriving DecidableEq, Repr

/-- `ExaSearchResult` (src/tofu/src/types/index.ts lines 13-30); the numeric
`score` field is never consulted and is omitted. -/
structure ExaSearchResult where
  id : JStr
  title : JStr
  url : JStr
  publishedDate : Option JStr
  author : Option JStr
  text : Option JStr
  highlights : Option (List JStr)
  deriving DecidableEq, Repr

/-- Rendering of one source line, client.ts line 286:
`result += `${index + 1}. [${source.title}](${source.url})\n`.` -/
def sourceLine (index : Nat) (s : ResearchSource) : JStr :=
  (Nat.repr (index + 1)).data ++ str ". [" ++ s.title ++ str "](" ++ s.url ++ str ")\n"

/-- The enumerated sources block appended to a completed research output,
client.ts lines 283-288. -/
def sourcesBlock (sources : List ResearchSource) : JStr :=
  (sources.enum.map fun p => sourceLine p.1 p.2).flatten

/-- Value returned for a `completed` poll response, client.ts lines 276-291.
JavaScript `||` makes an empty `output` fall back to the placeholder, and the
sources block is appended only when `sources` is present and non-empty. -/
def completedResult (r : ExaResearchGetResponse) : JStr :=
  let result := jsOrStr r.output (str "No research output available.")
  match r.sources with
  | some sources =>
    if sources.length > 0 then result ++ str "\n\n**Sources:**\n" ++ sourcesBlock sources
    else result
  | none => result

/-- Message thrown when a poll reports `failed`, client.ts lines 293-298. -/
def failedMessage (r : ExaResearchGetResponse) : JStr :=
  str "Research failed: " ++ jsOrStr r.error (str "Unknown error")

/-- Message thrown when the attempt budget is exhausted, client.ts lines 308-311. -/
def timeoutMessage : JStr :=
  str "Research timed out. The request is taking longer than expected."

/-- Poll-loop bound, client.ts line 258. -/
def maxAttempts : Nat := 30

/-- Initial backoff delay in milliseconds, client.ts line 259. -/
def initialDelay : ℚ := 2000

/-- Backoff delay cap in milliseconds, client.ts line 260. -/
def maxDelay : ℚ := 30000

/-- Backoff update after a non-terminal poll, client.ts line 305:
`delay = Math.min(delay * 1.5, maxDelay)`. -/
def nextDelay (d : ℚ) : ℚ := min (d * 1.5) maxDelay

/-- Delay slept before poll attempt `n` (1-based; `sleep(delay)` precedes every
poll, client.ts line 268).  The value at 0 is unused padding. -/
def delayBeforeAttempt : Nat → ℚ
  | 0 => initialDelay
  | 1 => initialDelay
  | n + 2 => nextDelay (delayBeforeAttempt (n + 1))

/-- The poll loop of `deepResearch`, client.ts lines 263-306, with the GET of
attempt `k` modelled by `resp k` (an `Except.error` is a thrown
`makeExaGetRequest`).  Returns the loop's outcome together with the number of
GET polls issued; exhausting the fuel (the attempt budget) yields the timeout
error of lines 308-311. -/
def pollAux (resp : Nat → Except JStr ExaResearchGetResponse) :
    Nat → Nat → Except JStr JStr × Nat
  | 0, _ => (Except.error timeoutMessage, 0)
  | fuel + 1, attempt =>
    match resp attempt with
    | Except.error e => (Except.error e, 1)
    | Except.ok st =>
      match st.status with
      | ExaStatus.completed => (Except.ok (completedResult st), 1)
      | ExaStatus.failed => (Except.error (failedMessage st), 1)
      | ExaStatus.canceled => (Except.error (str "Research task was canceled"), 1)
      | _ =>
        let r := pollAux resp fuel (attempt + 1)
        (r.1, r.2 + 1)

/-- The whole poll phase: attempts numbered 1..`maxAttempts`. -/
def pollPhase (resp : Nat → Except JStr ExaResearchGetResponse) :
    Except JStr JStr × Nat :=
  pollAux resp maxAttempts 1

/-- The `try` block of `deepResearch`, client.ts lines 243-311: the create
call (whose thrown error, if any, is the `create` input) followed by the poll
loop. -/
def researchAttempt (create : Except JStr Unit)
    (resp : Nat → Except JStr ExaResearchGetResponse) : Except JStr JStr :=
  match create with
  | Except.error e => Except.error e
  | Except.ok _ => (pollPhase resp).1

/-- The no-results sentinel of the fallback search, client.ts line 360. -/
def noInfoMessage (query : JStr) : JStr :=
  str "No detailed information found for " ++ query ++ str "."

/-- Formatting of one fallback search result, client.ts lines 366-381. -/
def fallbackResultBlock (index : Nat) (result : ExaSearchResult) : JStr :=
  str "**" ++ (Nat.repr (index + 1)).data ++ str ". " ++
    (if result.title.isEmpty then str "Unknown" else result.title) ++ str "**\n" ++
  (if result.url.isEmpty then [] else str "Source: " ++ result.url ++ str "\n") ++
  (match result.text with
   | some t => if t.isEmpty then [] else str "\n" ++ t.take 1500 ++ str "\n"
   | none => []) ++
  (match result.highlights with
   | some hs =>
     if hs.length > 0 then
       str "\nKey points:\n" ++ (hs.take 3 |>.map fun h => str "â€¢ " ++ h ++ str "\n").flatten
     else []
   | none => []) ++
  str "\n---\n\n"

/-- `fallbackDeepSearch`, client.ts lines 325-384, given the results returned
by the fallback `/search` call. -/
def fallbackDeepSearch (query : JStr) (_entityType : EntityType)
    (results : List ExaSearchResult) : JStr :=
  if results.length = 0 then noInfoMessage query
  else
    str "**Research Results for " ++ query ++ str "**\n\n" ++
      (results.enum.map fun p => fallbackResultBlock p.1 p.2).flatten

/-- `deepResearch`, client.ts lines 216-319: the research attempt with the
catch-all fallback.  `fallback` is the outcome of the fallback `/search`
request (its own thrown error propagates out of `deepResearch`). -/
def deepResearch (query : JStr) (entityType : EntityType)
    (create : Except JStr Unit)
    (resp : Nat → Except JStr ExaResearchGetResponse)
    (fallback : Except JStr (List ExaSearchResult)) : Except JStr JStr :=
  match researchAttempt create resp with
  | Except.ok r => Except.ok r
  | Except.error _ =>
    match fallback with
    | Except.error e => Except.error e
    | Except.ok results => Except.ok (fallbackDeepSearch query entityType results)

/-! ## Job store and consumer (src/tofu/src/backend/consumers/deepResearchConsumer.ts) -/

/-- `ResearchResult` stored under `research-result-…`, deepResearchConsumer.ts
lines 34-43. -/
structure ResearchResult where
  jobId : JStr
  success : Bool
  query : JStr
  entityType : EntityType
  pageUrl : Option JStr
  pageTitle : Option JStr
  error : Option JStr
  completedAt : JStr
  deriving DecidableEq, Repr

/-- The object literals written under `research-job-…` (deepResearchConsumer.ts
lines 128-137 and 158-166, actions/deepResearch.ts lines 200-208), with a
field for every key any of the three writes uses. -/
structure JobRecord where
  query : JStr
  entityType : EntityType
  userId : JStr
  cloudId : JStr
  jobId : Option JStr
  status : JStr
  pageUrl : Option JStr
  pageTitle : Option JStr
  error : Option JStr
  createdAt : Option JStr
  completedAt : Option JStr
  deriving DecidableEq, Repr

/-- A value held by the Forge key-value store. -/
inductive KVValue
  | result (r : ResearchResult)
  | job (j : JobRecord)
  deriving DecidableEq, Repr

/-- The key-value store: latest write first. -/
abbrev Store := List (JStr × KVValue)

/-- `kvs.set`: the new binding shadows any earlier one for the same key. -/
def kvsSet (s : Store) (k : JStr) (v : KVValue) : Store := (k, v) :: s

/-- `kvs.get`: the most recent binding for the key. -/
def kvsGet (s : Store) (k : JStr) : Option KVValue :=
  match s.find? fun p => p.1 = k with
  | some p => some p.2
  | none => none

/-- Key of the job record for a research id. -/
def jobKey (researchId : JStr) : JStr := str "research-job-" ++ researchId

/-- Key of the notification record for a research id. -/
def resultKey (researchId : JStr) : JStr := str "research-result-" ++ researchId

/-- `DeepResearchEventPayload`, deepResearchConsumer.ts lines 22-29. -/
structure DeepResearchEventPayload where
  query : JStr
  entityType : EntityType
  userId : JStr
  cloudId : JStr
  spaceKey : Option JStr
  researchId : JStr
  deriving DecidableEq, Repr

/-- A Confluence space as returned by `getSpacesAsApp` (pages helper lines
215-221); only `key` is consulted by the consumer. -/
structure ConfluenceSpace where
  id : JStr
  key : JStr
  name : JStr
  deriving DecidableEq, Repr

/-- Result of `createPageAsApp` (pages helper lines 444-446); `none` models its
`null` return. -/
structure PageResult where
  pageId : JStr
  pageUrl : JStr
  title : JStr
  deriving DecidableEq, Repr

/-- The `try` block of the consumer handler, deepResearchConsumer.ts lines
56-111: research call, target-space determination, page creation.  The three
collaborator calls are inputs: `research` is `exaDeepResearch`'s outcome,
`defaultSpace` is `getDefaultSpaceKeyAsApp()`, `spaces` is `getSpacesAsApp()`,
and `pageCreate` is `createPageAsApp`'s return value (`none` = `null`).
Returns the created page, or the thrown error message. -/
def handlerTry (payload : DeepResearchEventPayload)
    (research : Except JStr JStr)
    (defaultSpace : Option JStr) (spaces : List ConfluenceSpace)
    (pageCreate : Option PageResult) : Except JStr PageResult :=
  match research with
  | Except.error e => Except.error e
  | Except.ok _ =>
    let targetSpaceKey : Except JStr JStr :=
      if jsTruthy payload.spaceKey then Except.ok (jsOrStr payload.spaceKey [])
      else if jsTruthy defaultSpace then Except.ok (jsOrStr defaultSpace [])
      else
        match spaces with
        | s :: _ => Except.ok s.key
        | [] => Except.error (str "No Confluence spaces available. Please create a space first.")
    match targetSpaceKey with
    | Except.error e => Except.error e
    | Except.ok _ =>
      match pageCreate with
      | none => Except.error (str "Failed to create Confluence page")
      | some page => Except.ok page

/-- The consumer `handler`, deepResearchConsumer.ts lines 48-168: runs the try
block and writes the `research-result-…` and `research-job-…` records, with
the catch branch (lines 142-167) storing the failure instead of re-throwing.
`now` stands for `new Date().toISOString()`. -/
def handler (payload : DeepResearchEventPayload)
    (research : Except JStr JStr)
    (defaultSpace : Option JStr) (spaces : List ConfluenceSpace)
    (pageCreate : Option PageResult) (now : JStr) (store : Store) : Store :=
  match handlerTry payload research defaultSpace spaces pageCreate with
  | Except.ok page =>
    let store1 := kvsSet store (resultKey payload.researchId) (KVValue.result
      { jobId := payload.researchId, success := true, query := payload.query
        entityType := payload.entityType, pageUrl := some page.pageUrl
        pageTitle := some page.title, error := none, completedAt := now })
    kvsSet store1 (jobKey payload.researchId) (KVValue.job
      { query := payload.query, entityType := payload.entityType
        userId := payload.userId, cloudId := payload.cloudId, jobId := none
        status := str "completed", pageUrl := some page.pageUrl
        pageTitle := some page.title, error := none, createdAt := none
        completedAt := some now })
  | Except.error e =>
    let store1 := kvsSet store (resultKey payload.researchId) (KVValue.result
      { jobId := payload.researchId, success := false, query := payload.query
        entityType := payload.entityType, pageUrl := none, pageTitle := none
        error := some e, completedAt := now })
    kvsSet store1 (jobKey payload.researchId) (KVValue.job
      { query := payload.query, entityType := payload.entityType
        userId := payload.userId, cloudId := payload.cloudId, jobId := none
        status := str "failed", pageUrl := none, pageTitle := none
        error := some e, createdAt := none, completedAt := some now })

/-! ## Async dispatch (src/tofu/src/backend/actions/deepResearch.ts, async variant,
lines 139-230) -/

/-- The message body pushed onto the `deep-research-queue`,
actions/deepResearch.ts lines 184-193. -/
structure QueueMessage where
  query : JStr
  entityType : EntityType
  userId : JStr
  cloudId : JStr
  spaceKey : Option JStr
  researchId : JStr
  deriving DecidableEq, Repr

/-- Research-id generation, actions/deepResearch.ts lines 179-181:
`research-${Date.now()}-${Math.random().toString(36).substr(2, 9)}`; `nowMs`
and `rand` stand for the two interpolated values. -/
def mkResearchId (nowMs rand : JStr) : JStr :=
  str "research-" ++ nowMs ++ str "-" ++ rand

/-- Outcome of the async dispatch action: the returned chat message, the
message pushed to the queue (if any), and the updated store. -/
structure DispatchOutcome where
  message : JStr
  pushed : Option QueueMessage
  store : Store
  deriving Repr

/-- The async `deepResearch` dispatch action, actions/deepResearch.ts lines
139-230.  `cloudIdOpt` is `context?.cloudId`; `configSpace` is
`config?.defaultConfluenceSpace` read from the `tofu-config` key; `nowMs` and
`rand` feed the research-id; `nowIso` stands for `new Date().toISOString()`;
`queueJobId` is the `jobId` acknowledged by `queue.push`. -/
def dispatchDeepResearch (query : JStr) (entityType : EntityType)
    (cloudIdOpt : Option JStr) (configSpace : Option JStr)
    (nowMs rand nowIso queueJobId : JStr) (store : Store) : DispatchOutcome :=
  if query = [] ∨ jsTrim query = [] then
    { message := str "Please provide the name of the person or company you want to research."
      pushed := none, store := store }
  else
    let cloudId := jsOrStr cloudIdOpt (str "unknown")
    let userId := cloudId
    let defaultSpaceKey := configSpace
    let researchId := mkResearchId nowMs rand
    let msg : QueueMessage :=
      { query := query, entityType := entityType, userId := userId
        cloudId := cloudId, spaceKey := defaultSpaceKey, researchId := researchId }
    let store1 := kvsSet store (jobKey researchId) (KVValue.job
      { query := query, entityType := entityType, userId := userId
        cloudId := cloudId, jobId := some queueJobId, status := str "queued"
        pageUrl := none, pageTitle := none, error := none
        createdAt := some nowIso, completedAt := none })
    let emoji := if entityType = EntityType.person then str "👤" else str "🏢"
    { message := emoji ++
        str " **Deep Research Queued**\n\nI\x27ve started researching **" ++ query ++
        str "**. This may take 30-60 seconds.\n\n" ++
        str "The research results will be saved to a Confluence page" ++
        (match defaultSpaceKey with
         | some k => if k.isEmpty then [] else str " in the " ++ k ++ str " space"
         | none => []) ++
        str " and you\x27ll be notified when it\x27s complete.\n\n" ++
        str "💡 **What happens next:**\n" ++
        str "• Research is being performed in the background\n" ++
        str "• A Confluence page will be created with comprehensive findings\n" ++
        str "• You\x27ll receive a notification when it\x27s ready\n\n" ++
        str "You can continue using Tofu while the research completes. The research ID is: `" ++
        researchId ++ str "` (you can use this to check status)."
      pushed := some msg
      store := store1 }

/-! ## Lead and search-history persistence
(src/tofu/src/backend/actions/deepResearch.ts third section, lines 276-320, and
src/tofu/src/backend/resolver.ts lines 1035-1085) -/

/-- `SearchHistoryItem`, types/index.ts lines 156-167; `searchType` and
`resultCount` are carried verbatim. -/
structure SearchHistoryItem where
  id : JStr
  query : JStr
  searchType : JStr
  timestamp : JStr
  resultCount : Nat
  deriving DecidableEq, Repr

/-- `PersonLead`, types/index.ts lines 80-105. -/
structure PersonLead where
  id : JStr
  name : JStr
  title : Option JStr
  company : Option JStr
  location : Option JStr
  profileUrl : Option JStr
  summary : Option JStr
  skills : Option (List JStr)
  foundAt : JStr
  source : JStr
  status : JStr
  deriving DecidableEq, Repr

/-- `CompanyLead`, types/index.ts lines 110-137. -/
structure CompanyLead where
  id : JStr
  name : JStr
  industry : Option JStr
  size : Option JStr
  location : Option JStr
  website : Option JStr
  summary : Option JStr
  fundingStage : Option JStr
  technologies : Option (List JStr)
  foundAt : JStr
  source : JStr
  status : JStr
  deriving DecidableEq, Repr

/-- `saveSearchToHistory` (actions file lines 276-299, resolver lines
1035-1061): prepend the new history item and keep the first 50. -/
def saveSearchToHistory (history : List SearchHistoryItem)
    (item : SearchHistoryItem) : List SearchHistoryItem :=
  (item :: history).take 50

/-- `saveLeadsToStorage` for people (actions file lines 304-320): drop each
incoming lead whose `profileUrl` is already stored, prepend the remainder,
keep the first 200. -/
def saveLeadsToStorage (stored leads : List PersonLead) : List PersonLead :=
  ((leads.filter fun l =>
      !((stored.map fun l => l.profileUrl).contains l.profileUrl)) ++ stored).take 200

/-- `saveLeadsToStorage` for companies (resolver.ts lines 1066-1085): same
shape with `website` as the dedup key. -/
def saveCompanyLeadsToStorage (stored leads : List CompanyLead) : List CompanyLead :=
  ((leads.filter fun l =>
      !((stored.map fun l => l.website).contains l.website)) ++ stored).take 200

/-! ## Synchronous deep-research action and issue resolver classification
(src/tofu/src/backend/actions/deepResearch.ts first section, lines 36-96, and
src/tofu/src/backend/resolver.ts lines 626-635) -/

/-- The suggestion message returned when the sync action deems the research
empty, actions/deepResearch.ts lines 68-75. -/
def noResultSuggestions (entityType : EntityType) : JStr :=
  let entityLabel :=
    if entityType = EntityType.person then str "this person" else str "this company"
  str "I couldn\x27t find detailed information about " ++ entityLabel ++
    str ". Here are some suggestions:\n\n" ++
    str "• Try using the full name\n" ++
    str "• Include additional context (company name for people, industry for companies)\n" ++
    str "• Check for spelling variations"

/-- The synchronous `deepResearch` action handler, actions/deepResearch.ts
lines 36-96, after input validation has passed.  `research` is
`exaDeepResearch`'s outcome; the success test on line 64-67 is
`!researchOutput || researchOutput.includes("No detailed information found")`. -/
def deepResearchActionSync (query : JStr) (entityType : EntityType)
    (research : Except JStr JStr) : JStr :=
  match research with
  | Except.error e =>
    str "Sorry, I encountered an error while researching: " ++ e ++
      str "\n\nPlease try again with a different query."
  | Except.ok researchOutput =>
    if researchOutput.isEmpty ||
        jsIncludes researchOutput (str "No detailed information found") then
      noResultSuggestions entityType
    else
      let emoji := if entityType = EntityType.person then str "👤" else str "🏢"
      let header := emoji ++ str " **Deep Research: " ++ query ++ str "**\n\n"
      let followUp :=
        if entityType = EntityType.person then
          str "\n\n💡 **Next steps:**\n• Say \"add this person to board\" to track them in Jira\n• Ask me to search for similar people\n• Ask about their company for more context"
        else
          str "\n\n💡 **Next steps:**\n• Say \"add this company to board\" to track them in Jira\n• Ask me to find people at this company\n• Search for similar companies in the same space"
      header ++ researchOutput ++ followUp

/-- The result-classification step of the `performDeepResearch` resolver,
resolver.ts lines 626-635: `true` with an empty message when the output is
accepted, otherwise `false` with the could-not-find message. -/
def issueResearchClassification (leadName researchOutput : JStr) : Bool × JStr :=
  if researchOutput.isEmpty ||
      jsIncludes researchOutput (str "No detailed information found") then
    (false, str "Could not find detailed information about \"" ++ leadName ++
      str "\". The research may require more specific details.")
  else
    (true, [])

/-! ## Content formatter
(`convertResearchToStorageFormat`, src/tofu/src/backend/consumers part of the
Confluence pages helper, lines 554-688).  The regex scanners are embedded as
fueled recursions; the fuel is the input length, which each scanning step
strictly decreases, so it is never exhausted on the intended calls. -/

/-- One `String.prototype.replace` pass replacing one character globally. -/
def replaceCharWith (c : Char) (r : JStr) : JStr → JStr
  | [] => []
  | x :: xs => (if x = c then r else [x]) ++ replaceCharWith c r xs

/-- `escapeHtml`, lines 681-688: the five chained global replaces, in source
order. -/
def escapeHtml (text : JStr) : JStr :=
  replaceCharWith '\x27' (str "&#039;")
    (replaceCharWith '"' (str "&quot;")
      (replaceCharWith '>' (str "&gt;")
        (replaceCharWith '<' (str "&lt;")
          (replaceCharWith '&' (str "&amp;") text))))

/-- Global scan for `/\*\*([^*]+)\*\*/g → "<strong>$1</strong>"` (line 594):
at a `**`, a maximal non-empty run of non-`*` characters must be followed by
`**`; otherwise the scan advances one character, as the regex engine does. -/
def replaceBoldAux : Nat → JStr → JStr
  | 0, s => s
  | _ + 1, [] => []
  | fuel + 1, '*' :: '*' :: rest =>
    let run := rest.takeWhile fun c => c ≠ '*'
    let rest2 := rest.dropWhile fun c => c ≠ '*'
    if run ≠ [] ∧ rest2.take 2 = ['*', '*'] then
      str "<strong>" ++ run ++ str "</strong>" ++ replaceBoldAux fuel (rest2.drop 2)
    else '*' :: replaceBoldAux fuel ('*' :: rest)
  | fuel + 1, c :: cs => c :: replaceBoldAux fuel cs

def replaceBold (s : JStr) : JStr := replaceBoldAux s.length s

/-- Global scan for `/(?<!\*)\*([^*]+)\*(?!\*)/g → "<em>$1</em>"` (line 597);
`prev` carries the character preceding the scan position for the lookbehind. -/
def replaceItalicAux : Nat → Option Char → JStr → JStr
  | 0, _, s => s
  | _ + 1, _, [] => []
  | fuel + 1, prev, '*' :: rest =>
    if prev = some '*' then '*' :: replaceItalicAux fuel (some '*') rest
    else
      let run := rest.takeWhile fun c => c ≠ '*'
      let rest2 := rest.dropWhile fun c => c ≠ '*'
      if run ≠ [] ∧ rest2.take 1 = ['*'] ∧ (rest2.drop 1).take 1 ≠ ['*'] then
        str "<em>" ++ run ++ str "</em>" ++ replaceItalicAux fuel (some '*') (rest2.drop 1)
      else '*' :: replaceItalicAux fuel (some '*') rest
  | fuel + 1, _, c :: cs => c :: replaceItalicAux fuel (some c) cs

def replaceItalic (s : JStr) : JStr := replaceItalicAux s.length none s

/-- Split on newline characters; `splitNl (str "a\nb") = [str "a", str "b"]`. -/
def splitNl : JStr → List JStr
  | [] => [[]]
  | c :: cs =>
    match splitNl cs with
    | p :: ps => if c = '\n' then [] :: p :: ps else (c :: p) :: ps
    | [] => [[c]]

/-- Rejoin lines with newlines. -/
def joinNl (lines : List JStr) : JStr := List.intercalate (str "\n") lines

/-- Apply a per-line rewrite, as the `/gm`-anchored single-line regexes do. -/
def mapLines (f : JStr → JStr) (s : JStr) : JStr := joinNl ((splitNl s).map f)

/-- One heading rule `^MARKER (.+)$ → <tag>…</tag>` (lines 600-602). -/
def headingLine (marker tag : JStr) (line : JStr) : JStr :=
  if marker.isPrefixOf line ∧ line.drop marker.length ≠ [] then
    str "<" ++ tag ++ str ">" ++ line.drop marker.length ++ str "</" ++ tag ++ str ">"
  else line

/-- The bullet character class `[-‚Ä¢]` exactly as it appears in the source
file (line 606). -/
def isBulletChar (c : Char) : Bool := c = '-' || c = '‚' || c = 'Ä' || c = '¢'

/-- A line matching `^[-‚Ä¢] .+$`. -/
def isBulletLine : JStr → Bool
  | c :: ' ' :: _ :: _ => isBulletChar c
  | _ => false

/-- `line.replace(/^[-‚Ä¢] /, "")` (line 611). -/
def stripBullet (line : JStr) : JStr :=
  match line with
  | c :: ' ' :: rest => if isBulletChar c then rest else line
  | _ => line

/-- A line matching `^\d+\. .+$` (line 619). -/
def isNumberedLine (line : JStr) : Bool :=
  decide (line.takeWhile Char.isDigit ≠ [] ∧
    (line.dropWhile Char.isDigit).take 2 = str ". " ∧
    (line.dropWhile Char.isDigit).drop 2 ≠ [])

/-- `line.replace(/^\d+\. /, "")` (line 624). -/
def stripNumbered (line : JStr) : JStr :=
  if line.takeWhile Char.isDigit ≠ [] ∧ (line.dropWhile Char.isDigit).take 2 = str ". " then
    (line.dropWhile Char.isDigit).drop 2
  else line

/-- The list-grouping replacement (lines 606-629): each maximal run of
consecutive matching lines becomes `openTag`, one `<li>` per line (stripped
and trimmed), `closeTag`; the replacement's trailing `"\n"` adds an empty
line when the run sits at the very end of the text (everywhere else it merely
restores the newline the match consumed). -/
def groupLinesAux (isLine : JStr → Bool) (stripLine : JStr → JStr)
    (openTag closeTag : JStr) : Nat → List JStr → List JStr
  | 0, lines => lines
  | _ + 1, [] => []
  | fuel + 1, l :: ls =>
    if isLine l then
      let run := (l :: ls).takeWhile isLine
      let rest := (l :: ls).dropWhile isLine
      let items := (run.filter fun x => !(jsTrim x).isEmpty).map
        fun x => str "<li>" ++ jsTrim (stripLine x) ++ str "</li>"
      [openTag] ++ items ++ [closeTag] ++ (if rest.isEmpty then [[]] else []) ++
        groupLinesAux isLine stripLine openTag closeTag fuel rest
    else l :: groupLinesAux isLine stripLine openTag closeTag fuel ls

def groupPass (isLine : JStr → Bool) (stripLine : JStr → JStr)
    (openTag closeTag : JStr) (s : JStr) : JStr :=
  joinNl (groupLinesAux isLine stripLine openTag closeTag (splitNl s).length (splitNl s))

/-- Global scan for `/\[([^\]]+)\]\(([^)]+)\)/g → `<a href="$2">$1</a>``
(line 632). -/
def replaceLinksAux : Nat → JStr → JStr
  | 0, s => s
  | _ + 1, [] => []
  | fuel + 1, '[' :: rest =>
    (let t := rest.takeWhile fun c => c ≠ ']'
     let r1 := rest.dropWhile fun c => c ≠ ']'
     match r1 with
     | ']' :: '(' :: rest2 =>
       let u := rest2.takeWhile fun c => c ≠ ')'
       let r2 := rest2.dropWhile fun c => c ≠ ')'
       if t ≠ [] ∧ u ≠ [] ∧ r2.take 1 = [')'] then
         str "<a href=\"" ++ u ++ str "\">" ++ t ++ str "</a>" ++
           replaceLinksAux fuel (r2.drop 1)
       else '[' :: replaceLinksAux fuel rest
     | _ => '[' :: replaceLinksAux fuel rest)
  | fuel + 1, c :: cs => c :: replaceLinksAux fuel cs

def replaceLinks (s : JStr) : JStr := replaceLinksAux s.length s

/-- `^---+$ → <hr/>` (line 635). -/
def hrLine (line : JStr) : JStr :=
  if line.length ≥ 3 ∧ line.all (fun c => c = '-') then str "<hr/>" else line

/-- `content.split(/\n\n+/)` (line 638): split on maximal runs of two or more
newlines. -/
def splitParasAux : Nat → JStr → List JStr
  | 0, s => [s]
  | _ + 1, [] => [[]]
  | fuel + 1, '\n' :: '\n' :: rest =>
    [] :: splitParasAux fuel (rest.dropWhile fun c => c = '\n')
  | fuel + 1, c :: cs =>
    match splitParasAux fuel cs with
    | p :: ps => (c :: p) :: ps
    | [] => [[c]]

def splitParas (s : JStr) : List JStr := splitParasAux s.length s

/-- The per-block paragraph rule (lines 639-657): pass produced block-level
tags through trimmed, wrap other non-empty blocks in `<p>` with inner
newlines as `<br/>`. -/
def wrapPara (p : JStr) : JStr :=
  let trimmed := jsTrim p
  if (str "<h").isPrefixOf trimmed ∨ (str "<ul").isPrefixOf trimmed ∨
      (str "<ol").isPrefixOf trimmed ∨ (str "<hr").isPrefixOf trimmed ∨
      (str "<p").isPrefixOf trimmed then
    trimmed
  else if trimmed ≠ [] then
    str "<p>" ++ replaceCharWith '\n' (str "<br/>") trimmed ++ str "</p>"
  else []

/-- Lines 638-659: map the paragraph rule over the blocks, drop empties, join
with blank lines. -/
def paragraphsPass (s : JStr) : JStr :=
  List.intercalate (str "\n\n")
    (((splitParas s).map wrapPara).filter fun p => decide (p.length > 0))

/-- The body transformation of `convertResearchToStorageFormat`, lines
590-659, in the source's fixed rule order: bold, italic, h3, h2, h1, bullet
lists, numbered lists, links, horizontal rules, paragraphs. -/
def transformContent (markdownStr : JStr) : JStr :=
  let content1 := replaceBold markdownStr
  let content2 := replaceItalic content1
  let content3 := mapLines (headingLine (str "### ") (str "h3")) content2
  let content4 := mapLines (headingLine (str "## ") (str "h2")) content3
  let content5 := mapLines (headingLine (str "# ") (str "h1")) content4
  let content6 := groupPass isBulletLine stripBullet (str "<ul>") (str "</ul>") content5
  let content7 := groupPass isNumberedLine stripNumbered (str "<ol>") (str "</ol>") content6
  let content8 := replaceLinks content7
  let content9 := mapLines hrLine content8
  paragraphsPass content9

/-- The banner macro of the output, lines 576-585 (the emoji literals appear
in the source file in this exact byte form).  `today` stands for
`new Date().toLocaleDateString()`. -/
def headerPre (leadName : JStr) (entityType : EntityType) (today : JStr) : JStr :=
  let emoji := if entityType = EntityType.person then str "üë§" else str "üè¢"
  let typeLabel := if entityType = EntityType.person then str "Person" else str "Company"
  str "\n<ac:structured-macro ac:name=\"info\">\n  <ac:rich-text-body>\n    <p><strong>" ++
    emoji ++ str " " ++ typeLabel ++
    str " Lead Research</strong></p>\n    <p>This page contains AI-generated research about <strong>" ++
    escapeHtml leadName ++
    str "</strong>.</p>\n    <p><em>Generated by Tofu on " ++ today ++
    str "</em></p>\n  </ac:rich-text-body>\n</ac:structured-macro>\n\n"

/-- The full header template, lines 576-588: banner plus the `h1` heading. -/
def headerBlock (leadName : JStr) (entityType : EntityType) (today : JStr) : JStr :=
  headerPre leadName entityType today ++
    (str "<h1>Research: " ++ escapeHtml leadName ++ str "</h1>") ++ str "\n"

/-- The trailing note macro, lines 664-673. -/
def footerBlock : JStr :=
  str "\n<hr/>\n<ac:structured-macro ac:name=\"note\">\n  <ac:rich-text-body>\n    <p><strong>About this research</strong></p>\n    <p>This research was generated using Exa AI\x27s research capabilities. \n    The information should be verified before taking action.</p>\n  </ac:rich-text-body>\n</ac:structured-macro>\n"

/-- `convertResearchToStorageFormat`, lines 554-676, for a string `markdown`
input (the non-string safety branch of lines 563-573 is not modelled). -/
def convertResearchToStorageFormat (markdown leadName : JStr)
    (entityType : EntityType) (today : JStr) : JStr :=
  headerBlock leadName entityType today ++ transformContent markdown ++ footerBlock

/-! ## Concrete instances used in the claim analyses -/

/-- A person lead whose dedup key is `http://u`. -/
def leadU : PersonLead :=
  { id := str "l1", name := str "A", title := none, company := none
    location := none, profileUrl := some (str "http://u"), summary := none
    skills := none, foundAt := str "t1", source := str "http://u"
    status := str "pending" }

/-- A second lead with a different id but the same dedup key as `leadU`. -/
def leadU2 : PersonLead := { leadU with id := str "l2", name := str "B" }

/-- A person lead keyed by the ASCII character `i + 65`, used to build long
batches of distinct keys. -/
def leadAt (i : Nat) : PersonLead :=
  { leadU with id := (Nat.repr i).data, profileUrl := some [Char.ofNat (65 + i)] }

/-- A search-history item recording query number `i`. -/
def historyAt (i : Nat) : SearchHistoryItem :=
  { id := str "search-" ++ (Nat.repr i).data, query := (Nat.repr i).data
    searchType := str "people", timestamp := (Nat.repr i).data, resultCount := i }

/-- A company lead whose dedup key is `http://u`. -/
def companyU : CompanyLead :=
  { id := str "c1", name := str "A", industry := none, size := none
    location := none, website := some (str "http://u"), summary := none
    fundingStage := none, technologies := none, foundAt := str "t1"
    source := str "http://u", status := str "pending" }

/-- A second company lead with a different id but the same dedup key as
`companyU`. -/
def companyU2 : CompanyLead := { companyU with id := str "c2", name := str "B" }

/-- A company lead keyed by the ASCII character `i + 65`, used to build long
batches of distinct keys. -/
def companyLeadAt (i : Nat) : CompanyLead :=
  { companyU with id := (Nat.repr i).data, website := some [Char.ofNat (65 + i)] }

/-- A job record already in the terminal `completed` status. -/
def completedJob : JobRecord :=
  { query := str "Acme", entityType := EntityType.company, userId := str "u"
    cloudId := str "c", jobId := none, status := str "completed"
    pageUrl := some (str "/wiki/x"), pageTitle := some (str "Research: Acme")
    error := none, createdAt := none, completedAt := some (str "T1") }

/-- The consumer payload re-delivered for the job of `completedJob`. -/
def payloadAcme : DeepResearchEventPayload :=
  { query := str "Acme", entityType := EntityType.company, userId := str "u"
    cloudId := str "c", spaceKey := some (str "SP")
    researchId := str "research-1-abc" }

/-- A store already holding the terminal record of `completedJob`. -/
def storeWithCompleted : Store :=
  [(jobKey (str "research-1-abc"), KVValue.job completedJob)]

/-- A get-status response with status `running` and nothing else. -/
def runningResponse : ExaResearchGetResponse :=
  { status := ExaStatus.running, output := none, sources := none, error := none }

/-- A genuine, non-empty research report that happens to contain the fallback
sentinel phrase. -/
def genuineReport : JStr :=
  str "Acme Corp builds warehouse robots. Note: No detailed information found about 2025 revenue in public sources, though funding rounds are documented."

/-! ## Helper lemmas -/

theorem kvsGet_set_self (s : Store) (k : JStr) (v : KVValue) :
    kvsGet (kvsSet s k v) k = some v := by
  simp [kvsGet, kvsSet, List.find?]

theorem handler_job_failed (payload : DeepResearchEventPayload)
    (research : Except JStr JStr) (defaultSpace : Option JStr)
    (spaces : List ConfluenceSpace) (pageCreate : Option PageResult)
    (now : JStr) (store : Store) (e : JStr)
    (h : handlerTry payload research defaultSpace spaces pageCreate = Except.error e) :
    kvsGet (handler payload research defaultSpace spaces pageCreate now store)
        (jobKey payload.researchId) =
      some (KVValue.job
        { query := payload.query, entityType := payload.entityType
          userId := payload.userId, cloudId := payload.cloudId, jobId := none
          status := str "failed", pageUrl := none, pageTitle := none
          error := some e, createdAt := none, completedAt := some now }) := by
  unfold handler
  rw [h]
  exact kvsGet_set_self _ _ _

theorem handler_job_completed (payload : DeepResearchEventPayload)
    (research : Except JStr JStr) (defaultSpace : Option JStr)
    (spaces : List ConfluenceSpace) (pageCreate : Option PageResult)
    (now : JStr) (store : Store) (page : PageResult)
    (h : handlerTry payload research defaultSpace spaces pageCreate = Except.ok page) :
    kvsGet (handler payload research defaultSpace spaces pageCreate now store)
        (jobKey payload.researchId) =
      some (KVValue.job
        { query := payload.query, entityType := payload.entityType
          userId := payload.userId, cloudId := payload.cloudId, jobId := none
          status := str "completed", pageUrl := some page.pageUrl
          pageTitle := some page.title, error := none, createdAt := none
          completedAt := some now }) := by
  unfold handler
  rw [h]
  exact kvsGet_set_self _ _ _

/-! ## Claim C1 -/

set_option maxRecDepth 10000 in
/-- C1, counterexample: the stored record for `research-1-abc` is already in
the terminal status `completed`, yet re-delivering the event to the consumer
handler (here with the research call failing) changes the stored status to
`failed` — re-delivery is not a no-op. -/
theorem claim1_counterexample :
    kvsGet storeWithCompleted (jobKey (str "research-1-abc")) =
        some (KVValue.job completedJob) ∧
    completedJob.status = str "completed" ∧
    (match kvsGet (handler payloadAcme (Except.error timeoutMessage) none [] none
        (str "T2") storeWithCompleted) (jobKey (str "research-1-abc")) with
     | some (KVValue.job j) => j.status
     | _ => []) = str "failed" := by
  refine ⟨by decide, by decide, by decide⟩

/-- C1, amended: the handler never reads the stored job record; on re-delivery
it re-executes and overwrites the record with the outcome of the current run
(last-write-wins), so the record it stores under the job key is wholly
independent of the prior store contents — rather than treating a job already
in a terminal status as a no-op. -/
theorem claim1_amended_handler_overwrites_unconditionally
    (payload : DeepResearchEventPayload) (research : Except JStr JStr)
    (defaultSpace : Option JStr) (spaces : List ConfluenceSpace)
    (pageCreate : Option PageResult) (now : JStr) (s₁ s₂ : Store) :
    kvsGet (handler payload research defaultSpace spaces pageCreate now s₁)
        (jobKey payload.researchId) =
      kvsGet (handler payload research defaultSpace spaces pageCreate now s₂)
        (jobKey payload.researchId) := by
  unfold handler
  cases handlerTry payload research defaultSpace spaces pageCreate with
  | ok page => rw [kvsGet_set_self, kvsGet_set_self]
  | error e => rw [kvsGet_set_self, kvsGet_set_self]

/-! ## Claim C8 -/

/-- C8: if the research call throws, the error propagates to the handler's
catch; whenever any step of the try block throws `e`, the handler writes the
job record with `status = "failed"`, `error = e` and `completedAt` set (and,
being a total function into `Store`, re-throws nothing); when every step
succeeds it writes `status = "completed"` with the page URL, page title and
`completedAt`. -/
theorem claim8_terminal_job_records (payload : DeepResearchEventPayload)
    (research : Except JStr JStr) (defaultSpace : Option JStr)
    (spaces : List ConfluenceSpace) (pageCreate : Option PageResult)
    (now : JStr) (store : Store) :
    (∀ e, research = Except.error e →
      handlerTry payload research defaultSpace spaces pageCreate = Except.error e) ∧
    (∀ e, handlerTry payload research defaultSpace spaces pageCreate = Except.error e →
      kvsGet (handler payload research defaultSpace spaces pageCreate now store)
          (jobKey payload.researchId) =
        some (KVValue.job
          { query := payload.query, entityType := payload.entityType
            userId := payload.userId, cloudId := payload.cloudId, jobId := none
            status := str "failed", pageUrl := none, pageTitle := none
            error := some e, createdAt := none, completedAt := some now })) ∧
    (∀ page, handlerTry payload research defaultSpace spaces pageCreate = Except.ok page →
      kvsGet (handler payload research defaultSpace spaces pageCreate now store)
          (jobKey payload.researchId) =
        some (KVValue.job
          { query := payload.query, entityType := payload.entityType
            userId := payload.userId, cloudId := payload.cloudId, jobId := none
            status := str "completed", pageUrl := some page.pageUrl
            pageTitle := some page.title, error := none, createdAt := none
            completedAt := some now })) := by
  refine ⟨?_, ?_, ?_⟩
  · intro e he
    rw [he]
    rfl
  · intro e he
    exact handler_job_failed _ _ _ _ _ _ _ _ he
  · intro page hp
    exact handler_job_completed _ _ _ _ _ _ _ _ hp

set_option maxRecDepth 10000 in
/-- C8, witness: both branches exercised at concrete inputs — a run whose
research call throws writes the failed record, and a fully successful run
writes the completed record. -/
theorem claim8_terminal_job_records_witness :
    kvsGet (handler payloadAcme (Except.error (str "boom")) none [] none (str "T2") [])
        (jobKey (str "research-1-abc")) =
      some (KVValue.job
        { query := str "Acme", entityType := EntityType.company, userId := str "u"
          cloudId := str "c", jobId := none, status := str "failed"
          pageUrl := none, pageTitle := none, error := some (str "boom")
          createdAt := none, completedAt := some (str "T2") }) ∧
    kvsGet (handler payloadAcme (Except.ok (str "report")) none []
          (some { pageId := str "p1", pageUrl := str "/wiki/p1", title := str "Research: Acme" })
          (str "T3") [])
        (jobKey (str "research-1-abc")) =
      some (KVValue.job
        { query := str "Acme", entityType := EntityType.company, userId := str "u"
          cloudId := str "c", jobId := none, status := str "completed"
          pageUrl := some (str "/wiki/p1"), pageTitle := some (str "Research: Acme")
          error := none, createdAt := none, completedAt := some (str "T3") }) := by
  constructor
  · exact (claim8_terminal_job_records payloadAcme (Except.error (str "boom")) none [] none
      (str "T2") []).2.1 (str "boom") (by decide)
  · exact (claim8_terminal_job_records payloadAcme (Except.ok (str "report")) none []
      (some { pageId := str "p1", pageUrl := str "/wiki/p1", title := str "Research: Acme" })
      (str "T3") []).2.2
      { pageId := str "p1", pageUrl := str "/wiki/p1", title := str "Research: Acme" }
      (by decide)

/-! ## Claim C2 -/

/-- C2: whenever the research submission/poll path throws (any error,
timeouts included) and the fallback search returns zero results,
`deepResearch` returns the fixed no-information sentinel string rather than
throwing. -/
theorem claim2_fallback_sentinel (query : JStr) (entityType : EntityType)
    (create : Except JStr Unit)
    (resp : Nat → Except JStr ExaResearchGetResponse) (e : JStr)
    (h : researchAttempt create resp = Except.error e) :
    deepResearch query entityType create resp (Except.ok []) =
      Except.ok (noInfoMessage query) := by
  unfold deepResearch
  rw [h]
  rfl

/-- C2, witness: a run whose create call throws an upstream API error and
whose fallback search finds nothing returns the sentinel. -/
theorem claim2_fallback_sentinel_witness :
    researchAttempt (Except.error (str "Exa API error: 500 - boom"))
        (fun _ => Except.error (str "x")) =
      Except.error (str "Exa API error: 500 - boom") ∧
    deepResearch (str "Jane Doe") EntityType.person
        (Except.error (str "Exa API error: 500 - boom"))
        (fun _ => Except.error (str "x")) (Except.ok []) =
      Except.ok (noInfoMessage (str "Jane Doe")) :=
  ⟨rfl, claim2_fallback_sentinel (str "Jane Doe") EntityType.person _ _ _ rfl⟩

/-! ## Claim C10 -/

set_option maxRecDepth 10000 in
/-- C10: success of the research is decided by a substring test for
`"No detailed information found"`, so a genuine, non-empty report containing
that phrase is classified as a failure: the sync deep-research action returns
the could-not-find suggestion message instead of the report, and the issue
resolver's classification rejects it. -/
theorem claim10_sentinel_substring_misclassification :
    genuineReport ≠ [] ∧
    jsIncludes genuineReport (str "No detailed information found") = true ∧
    deepResearchActionSync (str "Acme Corp") EntityType.company
        (Except.ok genuineReport) = noResultSuggestions EntityType.company ∧
    (issueResearchClassification (str "Acme Corp") genuineReport).1 = false := by
  refine ⟨by decide, by decide, by decide, by decide⟩

/-! ## Poll-loop lemmas (for C5 and C6) -/

theorem pollAux_step_nonterminal (resp : Nat → Except JStr ExaResearchGetResponse)
    (fuel attempt : Nat) (st : ExaResearchGetResponse)
    (h : resp attempt = Except.ok st)
    (hst : st.status = ExaStatus.pending ∨ st.status = ExaStatus.running) :
    pollAux resp (fuel + 1) attempt =
      ((pollAux resp fuel (attempt + 1)).1, (pollAux resp fuel (attempt + 1)).2 + 1) := by
  simp only [pollAux, h]
  rcases hst with hst | hst <;> rw [hst]

theorem pollAux_step_completed (resp : Nat → Except JStr ExaResearchGetResponse)
    (fuel attempt : Nat) (st : ExaResearchGetResponse)
    (h : resp attempt = Except.ok st) (hst : st.status = ExaStatus.completed) :
    pollAux resp (fuel + 1) attempt = (Except.ok (completedResult st), 1) := by
  simp only [pollAux, h]
  rw [hst]

theorem pollAux_count_le (resp : Nat → Except JStr ExaResearchGetResponse) :
    ∀ (fuel attempt : Nat), (pollAux resp fuel attempt).2 ≤ fuel := by
  intro fuel
  induction fuel with
  | zero => intro attempt; exact Nat.le_refl 0
  | succ f ih =>
    intro attempt
    cases hr : resp attempt with
    | error e => simp [pollAux, hr]
    | ok st =>
      cases hst : st.status <;>
        simp [pollAux, hr, hst, Nat.succ_le_succ (ih (attempt + 1))]

theorem pollAux_all_nonterminal (resp : Nat → Except JStr ExaResearchGetResponse) :
    ∀ (fuel attempt : Nat),
      (∀ k, attempt ≤ k → k < attempt + fuel → ∃ st, resp k = Except.ok st ∧
        (st.status = ExaStatus.pending ∨ st.status = ExaStatus.running)) →
      pollAux resp fuel attempt = (Except.error timeoutMessage, fuel) := by
  intro fuel
  induction fuel with
  | zero => intro attempt _; rfl
  | succ f ih =>
    intro attempt h
    obtain ⟨st, hr, hst⟩ := h attempt (Nat.le_refl attempt) (by omega)
    rw [pollAux_step_nonterminal resp f attempt st hr hst,
      ih (attempt + 1) (fun k hk1 hk2 => h k (by omega) (by omega))]

/-! ## Claim C5 -/

/-- C5: when the get-status endpoint reports `running`, `running`,
`completed` on the first three polls — the completed response carrying a
non-empty output and a non-empty source list — the poll loop issues exactly 3
polls and returns the output with the sources appended as the numbered,
linked block `1. [title](url)` … `N. [title](url)` in response order;
`deepResearch` then returns that result unchanged. -/
theorem claim5_three_polls_sources_enumerated
    (resp : Nat → Except JStr ExaResearchGetResponse)
    (r1 r2 st : ExaResearchGetResponse) (o : JStr) (srcs : List ResearchSource)
    (h1 : resp 1 = Except.ok r1) (hs1 : r1.status = ExaStatus.running)
    (h2 : resp 2 = Except.ok r2) (hs2 : r2.status = ExaStatus.running)
    (h3 : resp 3 = Except.ok st) (hs3 : st.status = ExaStatus.completed)
    (ho : st.output = some o) (hoe : o ≠ []) (hsrc : st.sources = some srcs)
    (hse : srcs ≠ []) :
    pollPhase resp =
      (Except.ok (o ++ str "\n\n**Sources:**\n" ++ sourcesBlock srcs), 3) ∧
    (∀ (query : JStr) (entityType : EntityType)
        (fallback : Except JStr (List ExaSearchResult)),
      deepResearch query entityType (Except.ok ()) resp fallback =
        Except.ok (o ++ str "\n\n**Sources:**\n" ++ sourcesBlock srcs)) := by
  have hmain : pollPhase resp =
      (Except.ok (o ++ str "\n\n**Sources:**\n" ++ sourcesBlock srcs), 3) := by
    have e1 : pollPhase resp =
        ((pollAux resp 29 2).1, (pollAux resp 29 2).2 + 1) := by
      show pollAux resp 30 1 = _
      exact pollAux_step_nonterminal resp 29 1 r1 h1 (Or.inr hs1)
    have e2 : pollAux resp 29 2 =
        ((pollAux resp 28 3).1, (pollAux resp 28 3).2 + 1) :=
      pollAux_step_nonterminal resp 28 2 r2 h2 (Or.inr hs2)
    have e3 : pollAux resp 28 3 = (Except.ok (completedResult st), 1) :=
      pollAux_step_completed resp 27 3 st h3 hs3
    have hres : completedResult st =
        o ++ str "\n\n**Sources:**\n" ++ sourcesBlock srcs := by
      unfold completedResult
      rw [ho, hsrc]
      have hoemp : o.isEmpty = false := by
        cases o with
        | nil => exact absurd rfl hoe
        | cons c cs => rfl
      have hpos : srcs.length > 0 := List.length_pos.mpr hse
      simp [jsOrStr, hoemp, hpos]
    rw [e1, e2, e3, hres]
  refine ⟨hmain, fun query entityType fallback => ?_⟩
  unfold deepResearch researchAttempt
  rw [hmain]

set_option maxRecDepth 4000 in
/-- C5, witness: a concrete run with the status sequence
running, running, completed and two sources. -/
theorem claim5_three_polls_sources_enumerated_witness :
    pollPhase (fun k =>
      if k = 3 then
        Except.ok { status := ExaStatus.completed, output := some (str "OUT")
                    sources := some [{ url := str "http://a", title := str "A", snippet := none },
                                     { url := str "http://b", title := str "B", snippet := none }]
                    error := none }
      else Except.ok runningResponse) =
      (Except.ok (str "OUT" ++ str "\n\n**Sources:**\n" ++
        sourcesBlock [{ url := str "http://a", title := str "A", snippet := none },
                      { url := str "http://b", title := str "B", snippet := none }]), 3) := by
  exact claim5_three_polls_sources_enumerated
    (fun k =>
      if k = 3 then
        Except.ok { status := ExaStatus.completed, output := some (str "OUT")
                    sources := some [{ url := str "http://a", title := str "A", snippet := none },
                                     { url := str "http://b", title := str "B", snippet := none }]
                    error := none }
      else Except.ok runningResponse)
    runningResponse runningResponse
    { status := ExaStatus.completed, output := some (str "OUT")
      sources := some [{ url := str "http://a", title := str "A", snippet := none },
                       { url := str "http://b", title := str "B", snippet := none }]
      error := none }
    (str "OUT")
    [{ url := str "http://a", title := str "A", snippet := none },
     { url := str "http://b", title := str "B", snippet := none }]
    rfl rfl rfl rfl rfl rfl rfl (by decide) rfl (by decide) |>.1

/-! ## Claim C6 -/

/-- C6: the poll loop issues at most `maxAttempts = 30` polls for every
environment; the delay slept before attempt `n` is
`min(initialDelay · 1.5^(n-1), maxDelay)` (2000 ms, factor 1.5, cap
30000 ms); and when no poll within the budget returns a terminal status the
loop ends with the timeout error after exactly 30 polls. -/
theorem claim6_budget_backoff_timeout
    (resp : Nat → Except JStr ExaResearchGetResponse) (n : Nat) (hn : 1 ≤ n) :
    (pollPhase resp).2 ≤ maxAttempts ∧
    delayBeforeAttempt n = min (initialDelay * (3 / 2) ^ (n - 1)) maxDelay ∧
    ((∀ k, 1 ≤ k → k ≤ maxAttempts → ∃ st, resp k = Except.ok st ∧
        (st.status = ExaStatus.pending ∨ st.status = ExaStatus.running)) →
      pollPhase resp = (Except.error timeoutMessage, maxAttempts)) := by
  refine ⟨pollAux_count_le resp maxAttempts 1, ?_, ?_⟩
  · induction n with
    | zero => omega
    | succ m ihm =>
      cases m with
      | zero =>
        show initialDelay = _
        rw [pow_zero, mul_one]
        rw [min_eq_left (by norm_num [initialDelay, maxDelay])]
      | succ p =>
        have hstep : delayBeforeAttempt (p + 2) =
            nextDelay (delayBeforeAttempt (p + 1)) := rfl
        rw [hstep, ihm (by omega)]
        unfold nextDelay
        rw [min_mul_of_nonneg _ _ (by norm_num : (0 : ℚ) ≤ 1.5), min_assoc]
        have hc : min (maxDelay * (1.5 : ℚ)) maxDelay = maxDelay := by
          rw [min_eq_right (by norm_num [maxDelay])]
        rw [hc]
        have hx : initialDelay * (3 / 2 : ℚ) ^ (p + 1 - 1) * 1.5 =
            initialDelay * (3 / 2) ^ (p + 2 - 1) := by
          norm_num
          ring
        rw [hx]
  · intro h
    exact pollAux_all_nonterminal resp maxAttempts 1
      (fun k hk1 hk2 => h k hk1 (by omega))

/-- C6, witness: with every poll reporting `running`, the loop ends in the
timeout error after exactly 30 polls, and the delay before attempt 8 has hit
the 30000 ms cap. -/
theorem claim6_budget_backoff_timeout_witness :
    (pollPhase fun _ => Except.ok runningResponse).2 ≤ maxAttempts ∧
    delayBeforeAttempt 8 = min (initialDelay * (3 / 2) ^ 7) maxDelay ∧
    pollPhase (fun _ => Except.ok runningResponse) =
      (Except.error timeoutMessage, maxAttempts) := by
  obtain ⟨a, b, c⟩ := claim6_budget_backoff_timeout
    (fun _ => Except.ok runningResponse) 8 (by decide)
  exact ⟨a, b, c fun k _ _ => ⟨runningResponse, rfl, Or.inr rfl⟩⟩

/-! ## List lemmas for the retention and dedup claims -/

theorem take_cons_take {α : Type} (n : Nat) (a : α) (t : List α) :
    List.take (n + 1) (a :: List.take (n + 1) t) = List.take (n + 1) (a :: t) := by
  simp only [List.take_succ_cons, List.take_take]
  rw [min_eq_left (Nat.le_succ n)]

theorem saveSearchToHistory_foldl (items : List SearchHistoryItem) :
    ∀ t, List.foldl saveSearchToHistory (List.take 50 t) items =
      List.take 50 (items.reverse ++ t) := by
  induction items with
  | nil => intro t; simp
  | cons a rest ih =>
    intro t
    have hstep : saveSearchToHistory (List.take 50 t) a = List.take 50 (a :: t) :=
      take_cons_take 49 a t
    rw [List.foldl_cons, hstep, ih (a :: t)]
    simp [List.append_assoc]

theorem contains_eq_false_of_not_mem {u : Option JStr} {urls : List (Option JStr)}
    (h : u ∉ urls) : urls.contains u = false := by
  simpa using h

theorem saveLeads_single_fresh (t : List PersonLead) (a : PersonLead)
    (h : a.profileUrl ∉ t.map fun l => l.profileUrl) :
    saveLeadsToStorage (List.take 200 t) [a] = List.take 200 (a :: t) := by
  unfold saveLeadsToStorage
  have h2 : a.profileUrl ∉ (List.take 200 t).map fun l => l.profileUrl := by
    intro hmem
    rw [List.map_take] at hmem
    exact h (List.take_subset _ _ hmem)
  have hfilter : [a].filter
      (fun l => !(((List.take 200 t).map fun l => l.profileUrl).contains l.profileUrl)) = [a] := by
    simp only [List.filter_eq_self, List.mem_singleton]
    intro b hb
    subst hb
    simpa using h2
  rw [hfilter, List.singleton_append]
  exact take_cons_take 199 a t

theorem saveLeads_foldl (leads : List PersonLead) :
    ∀ t, ((leads ++ t).map fun l => l.profileUrl).Nodup →
      List.foldl (fun s l => saveLeadsToStorage s [l]) (List.take 200 t) leads =
        List.take 200 (leads.reverse ++ t) := by
  induction leads with
  | nil => intro t _; simp
  | cons a rest ih =>
    intro t h
    have hmem : a.profileUrl ∉ (rest ++ t).map fun l => l.profileUrl := by
      simp only [List.cons_append, List.map_cons, List.nodup_cons] at h
      exact h.1
    have hmem_t : a.profileUrl ∉ t.map fun l => l.profileUrl := by
      intro hx
      exact hmem (by rw [List.map_append]; exact List.mem_append_right _ hx)
    have hperm : List.Perm (a :: (rest ++ t)) (rest ++ a :: t) :=
      List.perm_middle.symm
    have hnd : ((rest ++ a :: t).map fun l => l.profileUrl).Nodup :=
      (List.Perm.nodup_iff (List.Perm.map (fun l => l.profileUrl) hperm)).mp h
    rw [List.foldl_cons, saveLeads_single_fresh t a hmem_t, ih (a :: t) hnd]
    simp [List.append_assoc]

theorem saveCompanyLeads_single_fresh (t : List CompanyLead) (a : CompanyLead)
    (h : a.website ∉ t.map fun l => l.website) :
    saveCompanyLeadsToStorage (List.take 200 t) [a] = List.take 200 (a :: t) := by
  unfold saveCompanyLeadsToStorage
  have h2 : a.website ∉ (List.take 200 t).map fun l => l.website := by
    intro hmem
    rw [List.map_take] at hmem
    exact h (List.take_subset _ _ hmem)
  have hfilter : [a].filter
      (fun l => !(((List.take 200 t).map fun l => l.website).contains l.website)) = [a] := by
    simp only [List.filter_eq_self, List.mem_singleton]
    intro b hb
    subst hb
    simpa using h2
  rw [hfilter, List.singleton_append]
  exact take_cons_take 199 a t

theorem saveCompanyLeads_foldl (leads : List CompanyLead) :
    ∀ t, ((leads ++ t).map fun l => l.website).Nodup →
      List.foldl (fun s l => saveCompanyLeadsToStorage s [l]) (List.take 200 t) leads =
        List.take 200 (leads.reverse ++ t) := by
  induction leads with
  | nil => intro t _; simp
  | cons a rest ih =>
    intro t h
    have hmem : a.website ∉ (rest ++ t).map fun l => l.website := by
      simp only [List.cons_append, List.map_cons, List.nodup_cons] at h
      exact h.1
    have hmem_t : a.website ∉ t.map fun l => l.website := by
      intro hx
      exact hmem (by rw [List.map_append]; exact List.mem_append_right _ hx)
    have hperm : List.Perm (a :: (rest ++ t)) (rest ++ a :: t) :=
      List.perm_middle.symm
    have hnd : ((rest ++ a :: t).map fun l => l.website).Nodup :=
      (List.Perm.nodup_iff (List.Perm.map (fun l => l.website) hperm)).mp h
    rw [List.foldl_cons, saveCompanyLeads_single_fresh t a hmem_t, ih (a :: t) hnd]
    simp [List.append_assoc]

/-! ## Claim C7 -/

/-- C7: folding insertions from an empty collection, the search history is
always the up-to-50 most recent items, most recent first (so 50-and-over
insertions leave exactly 50, evicting the oldest); both lead collections —
person `pending-leads` and company `pending-company-leads` — behave the same
with cap 200, given pairwise-distinct dedup keys. -/
theorem claim7_retention_caps (items : List SearchHistoryItem)
    (leads : List PersonLead) (cleads : List CompanyLead)
    (hkeys : (leads.map fun l => l.profileUrl).Nodup)
    (hckeys : (cleads.map fun l => l.website).Nodup) :
    List.foldl saveSearchToHistory [] items = (items.reverse).take 50 ∧
    (50 ≤ items.length → (List.foldl saveSearchToHistory [] items).length = 50) ∧
    List.foldl (fun s l => saveLeadsToStorage s [l]) [] leads =
      (leads.reverse).take 200 ∧
    (200 ≤ leads.length →
      (List.foldl (fun s l => saveLeadsToStorage s [l]) [] leads).length = 200) ∧
    List.foldl (fun s l => saveCompanyLeadsToStorage s [l]) [] cleads =
      (cleads.reverse).take 200 ∧
    (200 ≤ cleads.length →
      (List.foldl (fun s l => saveCompanyLeadsToStorage s [l]) [] cleads).length = 200) := by
  have h1 : List.foldl saveSearchToHistory [] items = (items.reverse).take 50 := by
    simpa using saveSearchToHistory_foldl items []
  have h2 : List.foldl (fun s l => saveLeadsToStorage s [l]) [] leads =
      (leads.reverse).take 200 := by
    simpa using saveLeads_foldl leads [] (by simpa using hkeys)
  have h3 : List.foldl (fun s l => saveCompanyLeadsToStorage s [l]) [] cleads =
      (cleads.reverse).take 200 := by
    simpa using saveCompanyLeads_foldl cleads [] (by simpa using hckeys)
  refine ⟨h1, ?_, h2, ?_, h3, ?_⟩
  · intro hlen
    rw [h1]
    simp only [List.length_take, List.length_reverse]
    omega
  · intro hlen
    rw [h2]
    simp only [List.length_take, List.length_reverse]
    omega
  · intro hlen
    rw [h3]
    simp only [List.length_take, List.length_reverse]
    omega

set_option maxRecDepth 40000 in
set_option maxHeartbeats 2000000 in
/-- C7, witness: 201 single-lead insertions with distinct keys leave exactly
the 200 most recent leads — for the person and the company collection alike —
and 55 history insertions leave exactly 50 entries. -/
theorem claim7_retention_caps_witness :
    ((((List.range 201).map leadAt).map fun l => l.profileUrl).Nodup) ∧
    List.foldl (fun s l => saveLeadsToStorage s [l]) [] ((List.range 201).map leadAt) =
      (((List.range 201).map leadAt).reverse).take 200 ∧
    ((((List.range 201).map companyLeadAt).map fun l => l.website).Nodup) ∧
    List.foldl (fun s l => saveCompanyLeadsToStorage s [l]) []
        ((List.range 201).map companyLeadAt) =
      (((List.range 201).map companyLeadAt).reverse).take 200 ∧
    (List.foldl saveSearchToHistory [] ((List.range 55).map historyAt)).length = 50 := by
  have h := claim7_retention_caps ((List.range 55).map historyAt)
    ((List.range 201).map leadAt) ((List.range 201).map companyLeadAt)
    (by decide) (by decide)
  exact ⟨by decide, h.2.2.1, by decide, h.2.2.2.2.1, h.2.1 (by decide)⟩

/-! ## Claim C3 -/

/-- C3, counterexample: two leads with the same dedup key inserted in the
same `saveLeads` batch are both stored — the resulting collection has two
entries for the key `http://u`, not exactly one. -/
theorem claim3_counterexample :
    leadU.profileUrl = leadU2.profileUrl ∧
    (saveLeadsToStorage [] [leadU, leadU2]).countP
      (fun l => decide (l.profileUrl = some (str "http://u"))) = 2 := by
  refine ⟨by decide, by decide⟩

/-- C3, amended: deduplication is enforced only against the already-stored
collection, not within a batch, for both dedup keys — profile URL for the
person collection and website for the company collection.  A batch whose
internal keys are distinct preserves key-uniqueness of a key-unique
collection, and a batch consisting entirely of already-present keys leaves
the stored collection unchanged — but duplicates inside one batch are all
inserted (see the counterexample). -/
theorem claim3_amended_cross_batch_dedup (stored leads : List PersonLead)
    (cstored cleads : List CompanyLead)
    (h1 : (stored.map fun l => l.profileUrl).Nodup)
    (h2 : (leads.map fun l => l.profileUrl).Nodup)
    (h3 : (cstored.map fun l => l.website).Nodup)
    (h4 : (cleads.map fun l => l.website).Nodup) :
    ((saveLeadsToStorage stored leads).map fun l => l.profileUrl).Nodup ∧
    ((∀ l ∈ leads, l.profileUrl ∈ stored.map fun l => l.profileUrl) →
      stored.length ≤ 200 → saveLeadsToStorage stored leads = stored) ∧
    ((saveCompanyLeadsToStorage cstored cleads).map fun l => l.website).Nodup ∧
    ((∀ l ∈ cleads, l.website ∈ cstored.map fun l => l.website) →
      cstored.length ≤ 200 → saveCompanyLeadsToStorage cstored cleads = cstored) := by
  refine ⟨?_, ?_, ?_, ?_⟩
  · unfold saveLeadsToStorage
    rw [List.map_take]
    refine List.Nodup.sublist (List.take_sublist _ _) ?_
    rw [List.map_append]
    refine List.Nodup.append ?_ h1 ?_
    · exact List.Nodup.sublist (List.Sublist.map _ (List.filter_sublist _)) h2
    · intro u hu hmem
      obtain ⟨l, hl, rfl⟩ := List.mem_map.mp hu
      have hp := List.of_mem_filter hl
      simp only [Bool.not_eq_true'] at hp
      have hmem' : (stored.map fun l => l.profileUrl).contains l.profileUrl = true := by
        simpa using hmem
      rw [hmem'] at hp
      cases hp
  · intro hall hlen
    unfold saveLeadsToStorage
    have hfilter : leads.filter
        (fun l => !((stored.map fun l => l.profileUrl).contains l.profileUrl)) = [] := by
      rw [List.filter_eq_nil_iff]
      intro l hl
      simp [List.elem_eq_mem, hall l hl]
    rw [hfilter, List.nil_append]
    exact List.take_of_length_le hlen
  · unfold saveCompanyLeadsToStorage
    rw [List.map_take]
    refine List.Nodup.sublist (List.take_sublist _ _) ?_
    rw [List.map_append]
    refine List.Nodup.append ?_ h3 ?_
    · exact List.Nodup.sublist (List.Sublist.map _ (List.filter_sublist _)) h4
    · intro u hu hmem
      obtain ⟨l, hl, rfl⟩ := List.mem_map.mp hu
      have hp := List.of_mem_filter hl
      simp only [Bool.not_eq_true'] at hp
      have hmem' : (cstored.map fun l => l.website).contains l.website = true := by
        simpa using hmem
      rw [hmem'] at hp
      cases hp
  · intro hall hlen
    unfold saveCompanyLeadsToStorage
    have hfilter : cleads.filter
        (fun l => !((cstored.map fun l => l.website).contains l.website)) = [] := by
      rw [List.filter_eq_nil_iff]
      intro l hl
      simp [List.elem_eq_mem, hall l hl]
    rw [hfilter, List.nil_append]
    exact List.take_of_length_le hlen

/-- C3, amended, witness: inserting a lead whose key equals the stored
lead's key leaves the collection unchanged and key-unique, for the person
and the company collection alike. -/
theorem claim3_amended_cross_batch_dedup_witness :
    ((saveLeadsToStorage [leadU] [leadU2]).map fun l => l.profileUrl).Nodup ∧
    saveLeadsToStorage [leadU] [leadU2] = [leadU] ∧
    ((saveCompanyLeadsToStorage [companyU] [companyU2]).map fun l => l.website).Nodup ∧
    saveCompanyLeadsToStorage [companyU] [companyU2] = [companyU] := by
  have h := claim3_amended_cross_batch_dedup [leadU] [leadU2] [companyU] [companyU2]
    (by decide) (by decide) (by decide) (by decide)
  exact ⟨h.1, h.2.1 (by decide) (by decide), h.2.2.1, h.2.2.2 (by decide) (by decide)⟩

/-! ## Claim C9 -/

theorem append_dash_inj : ∀ (n n' r r' : JStr), '-' ∉ n → '-' ∉ n' →
    n ++ '-' :: r = n' ++ '-' :: r' → n = n' ∧ r = r' := by
  intro n
  induction n with
  | nil =>
    intro n' r r' _ hn' h
    cases n' with
    | nil => simpa using h
    | cons c t =>
      simp only [List.nil_append, List.cons_append, List.cons.injEq] at h
      exfalso
      apply hn'
      rw [← h.1]
      exact List.mem_cons_self _ _
  | cons c t ih =>
    intro n' r r' hn hn' h
    cases n' with
    | nil =>
      simp only [List.cons_append, List.nil_append, List.cons.injEq] at h
      exfalso
      apply hn
      rw [h.1]
      exact List.mem_cons_self _ _
    | cons c' t' =>
      simp only [List.cons_append, List.cons.injEq] at h
      obtain ⟨hc, ht⟩ := h
      have hn2 : '-' ∉ t := fun hx => hn (List.mem_cons_of_mem _ hx)
      have hn2' : '-' ∉ t' := fun hx => hn' (List.mem_cons_of_mem _ hx)
      obtain ⟨e1, e2⟩ := ih t' r r' hn2 hn2' ht
      exact ⟨by rw [hc, e1], e2⟩

theorem mkResearchId_inj (n r n' r' : JStr) (hn : '-' ∉ n) (hn' : '-' ∉ n')
    (h : mkResearchId n r = mkResearchId n' r') : n = n' ∧ r = r' := by
  unfold mkResearchId at h
  have hd : str "-" = ['-'] := rfl
  rw [hd] at h
  have h2 : str "research-" ++ (n ++ '-' :: r) = str "research-" ++ (n' ++ '-' :: r') := by
    simpa [List.append_assoc] using h
  exact append_dash_inj n n' r r' hn hn' (List.append_cancel_left h2)

/-- C9: for a payload that passes validation (non-empty query), the async
dispatch action pushes a message carrying the query, entity type, the
context-derived user/cloud ids, configured space key and the generated
research id, and writes a job record under that research id with
`status = "queued"`, the same query and entity type and a `createdAt`
timestamp — the research outcome is not an input of the dispatch at all.
The generated id `research-{now}-{rand}` is unique whenever the interpolated
`(now, rand)` pair is (neither containing a dash). -/
theorem claim9_dispatch_enqueue_and_queued_record (query : JStr)
    (entityType : EntityType) (cloudIdOpt configSpace : Option JStr)
    (nowMs rand nowIso queueJobId : JStr) (store : Store)
    (hq : ¬(query = [] ∨ jsTrim query = [])) :
    (dispatchDeepResearch query entityType cloudIdOpt configSpace nowMs rand nowIso
        queueJobId store).pushed =
      some { query := query, entityType := entityType
             userId := jsOrStr cloudIdOpt (str "unknown")
             cloudId := jsOrStr cloudIdOpt (str "unknown")
             spaceKey := configSpace, researchId := mkResearchId nowMs rand } ∧
    kvsGet (dispatchDeepResearch query entityType cloudIdOpt configSpace nowMs rand
        nowIso queueJobId store).store (jobKey (mkResearchId nowMs rand)) =
      some (KVValue.job
        { query := query, entityType := entityType
          userId := jsOrStr cloudIdOpt (str "unknown")
          cloudId := jsOrStr cloudIdOpt (str "unknown")
          jobId := some queueJobId, status := str "queued", pageUrl := none
          pageTitle := none, error := none, createdAt := some nowIso
          completedAt := none }) ∧
    (∀ n r n' r', '-' ∉ n → '-' ∉ n' →
      mkResearchId n r = mkResearchId n' r' → n = n' ∧ r = r') := by
  refine ⟨?_, ?_, fun n r n' r' hn hn' h => mkResearchId_inj n r n' r' hn hn' h⟩
  · unfold dispatchDeepResearch
    rw [if_neg hq]
  · unfold dispatchDeepResearch
    rw [if_neg hq]
    exact kvsGet_set_self _ _ _

/-- C9, witness: a concrete valid dispatch. -/
theorem claim9_dispatch_enqueue_and_queued_record_witness :
    (dispatchDeepResearch (str "Acme") EntityType.company none none (str "170")
        (str "ab12cd34e") (str "T0") (str "j1") []).pushed =
      some { query := str "Acme", entityType := EntityType.company
             userId := jsOrStr none (str "unknown")
             cloudId := jsOrStr none (str "unknown")
             spaceKey := none, researchId := mkResearchId (str "170") (str "ab12cd34e") } ∧
    kvsGet (dispatchDeepResearch (str "Acme") EntityType.company none none (str "170")
        (str "ab12cd34e") (str "T0") (str "j1") []).store
        (jobKey (mkResearchId (str "170") (str "ab12cd34e"))) =
      some (KVValue.job
        { query := str "Acme", entityType := EntityType.company
          userId := jsOrStr none (str "unknown")
          cloudId := jsOrStr none (str "unknown")
          jobId := some (str "j1"), status := str "queued", pageUrl := none
          pageTitle := none, error := none, createdAt := some (str "T0")
          completedAt := none }) := by
  have h := claim9_dispatch_enqueue_and_queued_record (str "Acme") EntityType.company
    none none (str "170") (str "ab12cd34e") (str "T0") (str "j1") [] (by decide)
  exact ⟨h.1, h.2.1⟩

/-! ## Claim C4 -/

set_option maxRecDepth 100000 in
/-- C4, counterexample: the transformation does not escape markup-significant
characters in the free text of the report — the input `a < b & c` reaches the
output verbatim inside a paragraph, with no `&lt;`/`&amp;` escaping applied
at any stage (only the lead name is escaped). -/
theorem claim4_counterexample :
    jsIncludes (convertResearchToStorageFormat (str "a < b & c") (str "X")
      EntityType.person (str "12/25/2025")) (str "<p>a < b & c</p>") = true ∧
    jsIncludes (convertResearchToStorageFormat (str "a < b & c") (str "X")
      EntityType.person (str "12/25/2025")) (str "a &lt; b &amp; c") = false := by
  refine ⟨by decide, by decide⟩

set_option maxRecDepth 100000 in
/-- C4, amended: `convertResearchToStorageFormat` escapes `&`, `<`, `>` and
quotes only in the lead name interpolated into the banner and the heading
(via `escapeHtml`); the report text is transformed by the bold, italic,
heading, list, link, rule and paragraph rules with no escaping step, so
markup-significant characters in report free text pass through unescaped. -/
theorem claim4_amended_escapes_only_lead_name (leadName today : JStr) :
    (str "<h1>Research: " ++ escapeHtml leadName ++ str "</h1>") <:+:
      convertResearchToStorageFormat (str "a < b & c") leadName EntityType.person today ∧
    str "<p>a < b & c</p>" <:+:
      convertResearchToStorageFormat (str "a < b & c") leadName EntityType.person today := by
  constructor
  · refine ⟨headerPre leadName EntityType.person today,
      str "\n" ++ transformContent (str "a < b & c") ++ footerBlock, ?_⟩
    simp [convertResearchToStorageFormat, headerBlock, List.append_assoc]
  · have h : transformContent (str "a < b & c") = str "<p>a < b & c</p>" := by decide
    refine ⟨headerBlock leadName EntityType.person today, footerBlock, ?_⟩
    rw [← h]
    simp [convertResearchToStorageFormat, List.append_assoc]

end Tofu
